import Mathlib

/-!
Shallow embedding of the Health-queue Flask application (SUBANUM63/Health-queue)
for verification of its specification.

The embedded code:
  * `healthqueue/models.py` — the `User` and `Queue` rows, `get_reset_token`,
    `verify_reset_token`;
  * `healthqueue/users/routes.py` — `register`, `login`, `user_queues`,
    `reset_request`, `reset_token`;
  * `healthqueue/users/forms.py` — the uniqueness / existence validators of
    `RegistrationForm` and `RequestResetForm`;
  * `healthqueue/queues/routes.py` — `update_queue`, `delete_queue`;
  * `healthqueue/main/routes.py` — `home`.

External collaborators (bcrypt, the itsdangerous `URLSafeTimedSerializer`,
Flask-SQLAlchemy pagination) are modelled by executable Lean functions that
follow their documented behaviour; cryptographic primitives are modelled as
injective functions of their key material and payload.
-/

namespace HealthQueue

/-- Row of the `User` table (`models.py`): id, unique username, unique email,
profile image filename, bcrypt password hash. -/
structure User where
  id : Nat
  username : String
  email : String
  image_file : String
  password : String
deriving DecidableEq, Repr

/-- Row of the `Queue` table (`models.py`): id, title, creation timestamp
`date_queued` (seconds, as a natural number), content, owner's `user_id`. -/
structure Queue where
  id : Nat
  title : String
  date_queued : Nat
  content : String
  user_id : Nat
deriving DecidableEq, Repr

/-- The persistent store: the `user` and `queue` tables. -/
structure DB where
  users : List User
  queues : List Queue
deriving DecidableEq, Repr

/-- Model of `bcrypt.generate_password_hash(...).decode('utf-8')`: a one-way
hash modelled as an injective tagging function (one-wayness is not needed by
any claim; what matters is that verification compares hashes, not plaintext). -/
def generate_password_hash (pw : String) : String :=
  "bcrypt$" ++ pw

/-- Model of `bcrypt.check_password_hash(stored, candidate)`. -/
def check_password_hash (stored candidate : String) : Bool :=
  stored = generate_password_hash candidate

/-- The salt argument of `itsdangerous.url_safe.URLSafeTimedSerializer`:
either the library default `b"itsdangerous"` (when the caller passes only the
secret key) or a caller-supplied value. `models.py` passes the number
`expires_sec` in this position in `get_reset_token`. -/
inductive Salt where
  | dflt : Salt
  | custom : Nat → Salt
deriving DecidableEq, Repr

/-- Injective numeric code of a salt (the default salt is distinct from every
caller-supplied numeric salt). -/
def encodeSalt : Salt → Nat
  | Salt.dflt => 0
  | Salt.custom n => n + 1

/-- A token produced by the timed serializer: the serialized payload (the
`user_id` value of the `{'user_id': id}` dict), the issue timestamp the timed
serializer embeds at `dumps` time, and the keyed signature. -/
structure Token where
  payload : Nat
  timestamp : Nat
  sig : Nat
deriving DecidableEq, Repr

/-- Model of the keyed signature (HMAC over a key derived from secret key and
salt, covering payload and timestamp): an injective pairing of the key
material with the signed content. -/
def mac (secret_key : Nat) (salt : Salt) (payload timestamp : Nat) : Nat :=
  Nat.pair (Nat.pair secret_key (encodeSalt salt)) (Nat.pair payload timestamp)

/-- Embedding of `URLSafeTimedSerializer(secret_key, salt)`. -/
structure Serializer where
  secret_key : Nat
  salt : Salt
deriving DecidableEq, Repr

/-- Embedding of `s.dumps(payload)` at time `now`: embeds the issue timestamp and signs
payload and timestamp with the serializer's key material. -/
def Serializer.dumps (s : Serializer) (payload now : Nat) : Token :=
  Token.mk payload now (mac s.secret_key s.salt payload now)

/-- Age acceptance in `loads`: when no `max_age` is given the timed serializer
performs no expiry check at all; with `max_age = a` it requires
`now - timestamp <= a`. -/
def ageOk (max_age : Option Nat) (now timestamp : Nat) : Bool :=
  match max_age with
  | none => true
  | some a => now - timestamp ≤ a

/-- Embedding of `s.loads(token, max_age)` at time `now`: checks the signature against the
serializer's own key material and (only when `max_age` is given) the token's
age; returns the payload on success, failure otherwise (the `except` branch of
the caller). -/
def Serializer.loads (s : Serializer) (t : Token) (now : Nat)
    (max_age : Option Nat) : Option Nat :=
  if t.sig = mac s.secret_key s.salt t.payload t.timestamp
      ∧ ageOk max_age now t.timestamp then
    some t.payload
  else
    none

/-- Embedding of `User.query.get(user_id)`. -/
def find_user_by_id (db : DB) (user_id : Nat) : Option User :=
  db.users.find? (fun u => u.id = user_id)

/-- Embedding of `User.get_reset_token(expires_sec=1800)` (`models.py`): builds
`Serializer(SECRET_KEY, expires_sec)` — the second positional parameter of
`URLSafeTimedSerializer` is the *salt* — and dumps `{'user_id': self.id}`. -/
def get_reset_token (secret_key : Nat) (self_id : Nat) (now : Nat)
    (expires_sec : Nat) : Token :=
  Serializer.dumps (Serializer.mk secret_key (Salt.custom expires_sec)) self_id now

/-- Embedding of `User.verify_reset_token(token)` (`models.py`): builds
`Serializer(SECRET_KEY)` — default salt — and calls `s.loads(token)` with no
`max_age`; on any failure returns `None`, otherwise looks the user up by id. -/
def verify_reset_token (secret_key : Nat) (db : DB) (t : Token) (now : Nat) :
    Option User :=
  match Serializer.loads (Serializer.mk secret_key Salt.dflt) t now none with
  | none => none
  | some user_id => find_user_by_id db user_id

/-- Flask-Login session state: `current_user.is_authenticated` is false in the
anonymous state, true with the logged-in user's id otherwise. -/
inductive Session where
  | anonymous : Session
  | authenticated : Nat → Session
deriving DecidableEq, Repr

/-- Embedding of `User.query.filter_by(email=...).first()`. -/
def find_by_email (db : DB) (email : String) : Option User :=
  db.users.find? (fun u => u.email = email)

/-- Embedding of `User.query.filter_by(username=...).first()`. -/
def find_by_username (db : DB) (username : String) : Option User :=
  db.users.find? (fun u => u.username = username)

/-- Embedding of `Queue.query.get_or_404(queue_id)`, before the 404 branch. -/
def find_queue (db : DB) (queue_id : Nat) : Option Queue :=
  db.queues.find? (fun q => q.id = queue_id)

/-- A field-level form error raised by a WTForms validator
(`ValidationError`). -/
structure FieldError where
  field : String
  message : String
deriving DecidableEq, Repr

/-- The uniqueness validators of `RegistrationForm` (`users/forms.py`):
`validate_username` errors when some user already holds the username
(case-sensitive equality of `filter_by`), `validate_email` likewise. -/
def registration_errors (db : DB) (username email : String) : List FieldError :=
  (if db.users.any (fun u => u.username = username) then
    [FieldError.mk "username"
      "That username is taken. Please choose a different one."]
  else []) ++
  (if db.users.any (fun u => u.email = email) then
    [FieldError.mk "email"
      "That email is taken. Please choose a different one."]
  else [])

/-- Caller-visible outcome of the `register` route. -/
inductive RegisterResult where
  | redirectHome : RegisterResult
  | created : RegisterResult
  | renderForm : List FieldError → RegisterResult
deriving DecidableEq, Repr

/-- Auto-increment id for a new `User` row. -/
def nextUserId (db : DB) : Nat :=
  (db.users.map (fun u => u.id)).foldr max 0 + 1

/-- Embedding of the `register` route (`users/routes.py`): authenticated users are redirected home;
otherwise the form is validated (`dataValid` stands for the field validators
`DataRequired`/`Email`/`Length`; the uniqueness validators are modelled
explicitly) and on success the new row with the hashed password is committed. -/
def register (db : DB) (s : Session) (username email password : String)
    (dataValid : Bool) : RegisterResult × DB :=
  match s with
  | Session.authenticated _ => (RegisterResult.redirectHome, db)
  | Session.anonymous =>
    let errs := registration_errors db username email
    if dataValid && errs.isEmpty then
      (RegisterResult.created,
        DB.mk
          (db.users ++ [User.mk (nextUserId db) username email "default.jpg"
            (generate_password_hash password)])
          db.queues)
    else
      (RegisterResult.renderForm errs, db)

/-- Caller-visible outcome of the `login` route. -/
inductive LoginResult where
  | redirectHome : LoginResult
  | success : Nat → Bool → LoginResult
  | failed : String → LoginResult
  | renderForm : LoginResult
deriving DecidableEq, Repr

/-- Embedding of the `login` route (`users/routes.py`): authenticated users are redirected home; on a
valid form the user is looked up by email and the password checked against the
stored hash; both an unknown email and a wrong password fall into the same
`else` branch flashing one generic message. -/
def login (db : DB) (s : Session) (email password : String)
    (remember formValid : Bool) : LoginResult :=
  match s with
  | Session.authenticated _ => LoginResult.redirectHome
  | Session.anonymous =>
    if formValid then
      match find_by_email db email with
      | some user =>
        if check_password_hash user.password password then
          LoginResult.success user.id remember
        else
          LoginResult.failed "Login Unsuccessful. Please check email and password"
      | none =>
        LoginResult.failed "Login Unsuccessful. Please check email and password"
    else
      LoginResult.renderForm

/-- The session after the `login` route: only the `success` branch calls
`login_user`. -/
def session_after_login (s : Session) (r : LoginResult) : Session :=
  match r with
  | LoginResult.success uid _ => Session.authenticated uid
  | _ => s

/-- The existence validator of `RequestResetForm` (`users/forms.py`):
`validate_email` raises `There is no account with that email. You must
register first.` when no user holds the address. -/
def request_reset_errors (db : DB) (email : String) : List FieldError :=
  match find_by_email db email with
  | none =>
    [FieldError.mk "email"
      "There is no account with that email. You must register first."]
  | some _ => []

/-- Caller-visible outcome of the `reset_request` route. -/
inductive ResetRequestResult where
  | redirectHome : ResetRequestResult
  | emailSent : String → ResetRequestResult
  | renderForm : List FieldError → ResetRequestResult
deriving DecidableEq, Repr

/-- Embedding of the `reset_request` route (`users/routes.py`): authenticated users are redirected
home; on a valid form (which requires `validate_email` of `RequestResetForm`
to pass) the reset email is sent and the generic confirmation flashed;
otherwise the form is re-rendered with its field errors. -/
def reset_request (db : DB) (s : Session) (email : String)
    (dataValid : Bool) : ResetRequestResult :=
  match s with
  | Session.authenticated _ => ResetRequestResult.redirectHome
  | Session.anonymous =>
    let errs := request_reset_errors db email
    if dataValid && errs.isEmpty then
      ResetRequestResult.emailSent
        "An email has been sent with instructions to reset your password."
    else
      ResetRequestResult.renderForm errs

/-- Caller-visible outcome of the `reset_token` route. -/
inductive ResetTokenResult where
  | redirectHome : ResetTokenResult
  | invalidToken : String → ResetTokenResult
  | passwordUpdated : ResetTokenResult
  | renderForm : ResetTokenResult
deriving DecidableEq, Repr

/-- Embedding of the `reset_token` route (`users/routes.py`): authenticated users are redirected
home; then the token is verified; on failure a warning is flashed and the
caller redirected to `reset_request` with no mutation; on success and a valid
form the bound user's password hash is overwritten and committed. -/
def reset_token_route (secret_key : Nat) (db : DB) (s : Session) (t : Token)
    (now : Nat) (formValid : Bool) (new_password : String) :
    ResetTokenResult × DB :=
  match s with
  | Session.authenticated _ => (ResetTokenResult.redirectHome, db)
  | Session.anonymous =>
    match verify_reset_token secret_key db t now with
    | none =>
      (ResetTokenResult.invalidToken "That is an invalid or expired token", db)
    | some user =>
      if formValid then
        (ResetTokenResult.passwordUpdated,
          DB.mk
            (db.users.map (fun u =>
              if u.id = user.id then
                User.mk u.id u.username u.email u.image_file
                  (generate_password_hash new_password)
              else u))
            db.queues)
      else
        (ResetTokenResult.renderForm, db)

/-- Caller-visible outcome of the queue mutation routes. -/
inductive QueueRouteResult where
  | redirectLogin : QueueRouteResult
  | notFound : QueueRouteResult
  | forbidden : QueueRouteResult
  | success : QueueRouteResult
  | renderForm : QueueRouteResult
deriving DecidableEq, Repr

/-- Embedding of the `update_queue` route (`queues/routes.py`): `login_required` redirects anonymous
sessions to the login page; `get_or_404` resolves the entry; `queue.author !=
current_user` (id comparison, per Flask-Login's `UserMixin.__eq__`) aborts
with 403; on a valid form title and content are overwritten and committed. -/
def update_queue (db : DB) (s : Session) (queue_id : Nat)
    (title content : String) (formValid : Bool) : QueueRouteResult × DB :=
  match s with
  | Session.anonymous => (QueueRouteResult.redirectLogin, db)
  | Session.authenticated uid =>
    match find_queue db queue_id with
    | none => (QueueRouteResult.notFound, db)
    | some q =>
      if q.user_id ≠ uid then
        (QueueRouteResult.forbidden, db)
      else if formValid then
        (QueueRouteResult.success,
          DB.mk db.users
            (db.queues.map (fun q2 =>
              if q2.id = queue_id then
                Queue.mk q2.id title q2.date_queued content q2.user_id
              else q2)))
      else
        (QueueRouteResult.renderForm, db)

/-- Embedding of the `delete_queue` route (`queues/routes.py`): same guard as `update_queue`; on
success the row is deleted and committed. -/
def delete_queue (db : DB) (s : Session) (queue_id : Nat) :
    QueueRouteResult × DB :=
  match s with
  | Session.anonymous => (QueueRouteResult.redirectLogin, db)
  | Session.authenticated uid =>
    match find_queue db queue_id with
    | none => (QueueRouteResult.notFound, db)
    | some q =>
      if q.user_id ≠ uid then
        (QueueRouteResult.forbidden, db)
      else
        (QueueRouteResult.success,
          DB.mk db.users (db.queues.filter (fun q2 => q2.id ≠ queue_id)))

/-- The ordering of `order_by(Queue.date_queued.desc())`: `a` may precede `b`
when `b`'s timestamp is at most `a`'s (non-increasing recency). -/
def recencyGE (a b : Queue) : Prop :=
  b.date_queued ≤ a.date_queued

instance : DecidableRel recencyGE :=
  fun a b => Nat.decLe b.date_queued a.date_queued

instance : IsTotal Queue recencyGE :=
  ⟨fun a b => Nat.le_total b.date_queued a.date_queued⟩

instance : IsTrans Queue recencyGE :=
  ⟨fun _ _ _ h1 h2 => le_trans h2 h1⟩

/-- Embedding of `Queue.query.order_by(Queue.date_queued.desc())`: all stored entries in
non-increasing `date_queued` order. -/
def list_by_recency (db : DB) : List Queue :=
  List.insertionSort recencyGE db.queues

/-- Model of `.paginate(page=page, per_page=5)` (Flask-SQLAlchemy, `error_out`
defaulting to true): pages below 1 abort with 404, the items of page `page`
are the slice of length `per_page = 5` at offset `(page - 1) * 5`, and an
empty page other than page 1 aborts with 404. -/
def paginate_items (l : List Queue) (page : Nat) : Option (List Queue) :=
  if page = 0 then
    none
  else if ((l.drop ((page - 1) * 5)).take 5).isEmpty && page != 1 then
    none
  else
    some ((l.drop ((page - 1) * 5)).take 5)

/-- Embedding of the `home` route (`main/routes.py`): the items of the requested page of the global
listing ordered by `date_queued.desc()`, with `per_page=5`. -/
def home_page_items (db : DB) (page : Nat) : Option (List Queue) :=
  paginate_items (list_by_recency db) page

/-- Embedding of the `user_queues` route (`users/routes.py`): `first_or_404` on the username, then
that user's entries ordered by `date_queued.desc()`, paginated with
`per_page=5`. -/
def user_queues_items (db : DB) (username : String) (page : Nat) :
    Option (List Queue) :=
  match find_by_username db username with
  | none => none
  | some u =>
    paginate_items
      (List.insertionSort recencyGE
        (db.queues.filter (fun q => q.user_id = u.id)))
      page

/-- Example stored user, for concrete evaluations. -/
def exUser : User :=
  User.mk 1 "alice" "alice@example.com" "default.jpg" (generate_password_hash "pw1")

/-- Second example stored user. -/
def exUser2 : User :=
  User.mk 2 "bob" "bob@example.com" "default.jpg" (generate_password_hash "pw2")

/-- Six example queue entries with pairwise distinct creation timestamps. -/
def exQs : List Queue :=
  [Queue.mk 1 "p1" 6 "xray" 1, Queue.mk 2 "p2" 5 "mri" 1,
   Queue.mk 3 "p3" 4 "ct" 2, Queue.mk 4 "p4" 3 "lab" 1,
   Queue.mk 5 "p5" 2 "xray" 2, Queue.mk 6 "p6" 1 "mri" 1]

/-- Example store holding both users and the six entries. -/
def exDB : DB := DB.mk [exUser, exUser2] exQs

/-- C1: the spec's round-trip contract
`verify(mint(s, secret, ttl), secret, ttl) = s within the ttl window` fails on
the code for every input: `get_reset_token` builds the serializer with
`expires_sec` in the salt position while `verify_reset_token` builds it with
the library-default salt, so the signature of a freshly minted token never
matches and verification returns `None` — at every verification time, for
every user and secret. -/
theorem C1_minted_token_never_verifies
    (secret_key self_id mint_time expires_sec verify_time : Nat) (db : DB) :
    verify_reset_token secret_key db
      (get_reset_token secret_key self_id mint_time expires_sec) verify_time
      = none := by
  have hne : mac secret_key (Salt.custom expires_sec) self_id mint_time
      ≠ mac secret_key Salt.dflt self_id mint_time := by
    intro h
    unfold mac at h
    have h2 := (Nat.pair_eq_pair.mp h).1
    have h3 := (Nat.pair_eq_pair.mp h2).2
    simp [encodeSalt] at h3
  simp [verify_reset_token, get_reset_token, Serializer.dumps, Serializer.loads, hne]

/-- C2: no expiry check exists. `verify_reset_token` calls `loads` with no
`max_age`, so a token carrying the correct default-salt signature is accepted
at any age: in general `loads` without `max_age` accepts a token dumped by
the same serializer at every later time, and concretely a token issued at
time 0 for user 1 is still accepted at time 1801 (one second past the claimed
1800-second ttl) and at time 100000. -/
theorem C2_verification_never_expires :
    (∀ (secret_key payload t0 now : Nat) (salt : Salt),
      Serializer.loads (Serializer.mk secret_key salt)
        (Serializer.dumps (Serializer.mk secret_key salt) payload t0) now none
        = some payload)
    ∧ verify_reset_token 7 exDB
        (Serializer.dumps (Serializer.mk 7 Salt.dflt) 1 0) 1801 = some exUser
    ∧ verify_reset_token 7 exDB
        (Serializer.dumps (Serializer.mk 7 Salt.dflt) 1 0) 100000 = some exUser := by
  refine ⟨fun secret_key payload t0 now salt => ?_, by decide, by decide⟩
  simp [Serializer.loads, Serializer.dumps, ageOk]

/-- C10: for every already-authenticated session, `reset_request` and
`reset_token` immediately redirect to the home page, for every submitted
email, token (valid or not), time and form state, and the store is left
unchanged — an authenticated user can never complete a token-based password
reset. -/
theorem C10_authenticated_reset_redirects_home
    (uid secret_key : Nat) (db : DB) (email : String) (dataValid : Bool)
    (t : Token) (now : Nat) (formValid : Bool) (new_password : String) :
    reset_request db (Session.authenticated uid) email dataValid
      = ResetRequestResult.redirectHome
    ∧ reset_token_route secret_key db (Session.authenticated uid) t now
        formValid new_password
      = (ResetTokenResult.redirectHome, db) :=
  ⟨rfl, rfl⟩

/-- C3 counterexample: the caller-visible outcome of the password-reset
request is not the same for an existing and a nonexistent email address. On
the example store, submitting the stored address yields the generic
confirmation, while submitting an unknown address re-renders the form with
the validator error `There is no account with that email. You must register
first.` — revealing that the address has no account. -/
theorem C3_counterexample :
    reset_request exDB Session.anonymous "alice@example.com" true
      = ResetRequestResult.emailSent
          "An email has been sent with instructions to reset your password."
    ∧ reset_request exDB Session.anonymous "nobody@example.com" true
      = ResetRequestResult.renderForm
          [FieldError.mk "email"
            "There is no account with that email. You must register first."]
    ∧ reset_request exDB Session.anonymous "nobody@example.com" true
      ≠ reset_request exDB Session.anonymous "alice@example.com" true := by
  refine ⟨by decide, by decide, by decide⟩

/-- C3 amended: the password-reset request reveals whether the address has an
account. For every store and email, if no user holds the address the request
fails validation with the revealing field error; if a user holds it, the
generic confirmation is returned. -/
theorem C3_reset_request_reveals_account (db : DB) (email : String) :
    (find_by_email db email = none →
      reset_request db Session.anonymous email true
        = ResetRequestResult.renderForm
            [FieldError.mk "email"
              "There is no account with that email. You must register first."])
    ∧ (∀ u, find_by_email db email = some u →
      reset_request db Session.anonymous email true
        = ResetRequestResult.emailSent
            "An email has been sent with instructions to reset your password.") := by
  constructor
  · intro hnone
    simp [reset_request, request_reset_errors, hnone]
  · intro u hu
    simp [reset_request, request_reset_errors, hu]

/-- C3 witness: the amended theorem at the example store and an unknown
address. -/
theorem C3_reset_request_reveals_account_witness :
    reset_request exDB Session.anonymous "nobody@example.com" true
      = ResetRequestResult.renderForm
          [FieldError.mk "email"
            "There is no account with that email. You must register first."] :=
  (C3_reset_request_reveals_account exDB "nobody@example.com").1 (by decide)

/-- C7: for every store and submitted credentials, whenever the email matches
no user or the stored hash does not verify the password, `login` returns the
single generic failure message `Login Unsuccessful. Please check email and
password` — the same value in both cases — and no authenticated session is
established. -/
theorem C7_login_generic_failure (db : DB) (email password : String)
    (remember : Bool)
    (hfail : (find_by_email db email).all
      (fun u => !check_password_hash u.password password) = true) :
    login db Session.anonymous email password remember true
      = LoginResult.failed "Login Unsuccessful. Please check email and password"
    ∧ session_after_login Session.anonymous
        (login db Session.anonymous email password remember true)
      = Session.anonymous := by
  cases hf : find_by_email db email with
  | none =>
    simp [login, hf, session_after_login]
  | some u =>
    rw [hf] at hfail
    simp only [Option.all_some, Bool.not_eq_true'] at hfail
    simp [login, hf, hfail, session_after_login]

/-- C7 witness: the theorem at the example store, once with a wrong password
for a stored email and once with an unknown email. -/
theorem C7_login_generic_failure_witness :
    login exDB Session.anonymous "alice@example.com" "wrong" false true
      = LoginResult.failed "Login Unsuccessful. Please check email and password"
    ∧ login exDB Session.anonymous "nobody@example.com" "pw1" true true
      = LoginResult.failed "Login Unsuccessful. Please check email and password" :=
  ⟨(C7_login_generic_failure exDB "alice@example.com" "wrong" false (by decide)).1,
   (C7_login_generic_failure exDB "nobody@example.com" "pw1" true (by decide)).1⟩

/-- C8: for every store and registration attempt whose username exactly
equals the username of a stored user (case-sensitive string equality, as in
`filter_by`), `register` leaves the store unchanged — no new `User` row — and
re-renders the form with a `ValidationError` whose field is `username`. -/
theorem C8_duplicate_username_rejected (db : DB)
    (username email password : String) (dataValid : Bool)
    (hdup : ∃ u, u ∈ db.users ∧ u.username = username) :
    (register db Session.anonymous username email password dataValid).2 = db
    ∧ ∃ errs,
        (register db Session.anonymous username email password dataValid).1
          = RegisterResult.renderForm errs
        ∧ FieldError.mk "username"
            "That username is taken. Please choose a different one." ∈ errs := by
  have hany : db.users.any (fun u => u.username = username) = true := by
    rcases hdup with ⟨u, hu, hname⟩
    exact List.any_eq_true.mpr ⟨u, hu, by simp [hname]⟩
  have herrs : ¬(registration_errors db username email).isEmpty = true := by
    simp [registration_errors, hany]
  constructor
  · simp [register, herrs]
  · refine ⟨registration_errors db username email, by simp [register, herrs], ?_⟩
    simp [registration_errors, hany]

/-- C8 witness: the theorem at the example store with the stored username
`alice`. -/
theorem C8_duplicate_username_rejected_witness :
    (register exDB Session.anonymous "alice" "fresh@example.com" "pw9" true).2
      = exDB
    ∧ ∃ errs,
        (register exDB Session.anonymous "alice" "fresh@example.com" "pw9" true).1
          = RegisterResult.renderForm errs
        ∧ FieldError.mk "username"
            "That username is taken. Please choose a different one." ∈ errs :=
  C8_duplicate_username_rejected exDB "alice" "fresh@example.com" "pw9" true
    ⟨exUser, by decide, rfl⟩

/-- C4: for every store, session and stored queue entry, the update and
delete routes proceed to mutate (`success`) exactly when the session is
authenticated as the entry's owner; every authenticated non-owner receives
403 (`forbidden`) and the store — in particular the entry — is unchanged. -/
theorem C4_owner_guard (db : DB) (s : Session) (queue_id : Nat) (q : Queue)
    (title content : String) (hq : find_queue db queue_id = some q) :
    ((update_queue db s queue_id title content true).1 = QueueRouteResult.success
      ↔ s = Session.authenticated q.user_id)
    ∧ ((delete_queue db s queue_id).1 = QueueRouteResult.success
      ↔ s = Session.authenticated q.user_id)
    ∧ ∀ uid, s = Session.authenticated uid → uid ≠ q.user_id →
        update_queue db s queue_id title content true
          = (QueueRouteResult.forbidden, db)
        ∧ delete_queue db s queue_id = (QueueRouteResult.forbidden, db) := by
  cases s with
  | anonymous =>
    refine ⟨?_, ?_, ?_⟩
    · simp [update_queue]
    · simp [delete_queue]
    · intro uid h
      exact absurd h (by simp)
  | authenticated uid =>
    by_cases howner : q.user_id = uid
    · subst howner
      refine ⟨?_, ?_, ?_⟩
      · simp [update_queue, hq]
      · simp [delete_queue, hq]
      · intro uid2 h hne
        exact absurd (Session.authenticated.inj h).symm hne
    · have hne : q.user_id ≠ uid := howner
      refine ⟨?_, ?_, ?_⟩
      · simp [update_queue, hq, hne]
        intro h
        exact howner h.symm
      · simp [delete_queue, hq, hne]
        intro h
        exact howner h.symm
      · intro uid2 h _
        cases Session.authenticated.inj h
        constructor
        · simp [update_queue, hq, hne]
        · simp [delete_queue, hq, hne]

/-- C4 witness: on the example store, entry 1 is owned by user 1; user 2 gets
403 from both routes with the store unchanged, and user 1 proceeds on both. -/
theorem C4_owner_guard_witness :
    (update_queue exDB (Session.authenticated 2) 1 "t" "c" true
        = (QueueRouteResult.forbidden, exDB)
      ∧ delete_queue exDB (Session.authenticated 2) 1
        = (QueueRouteResult.forbidden, exDB))
    ∧ (update_queue exDB (Session.authenticated 1) 1 "t" "c" true).1
        = QueueRouteResult.success
    ∧ (delete_queue exDB (Session.authenticated 1) 1).1
        = QueueRouteResult.success :=
  ⟨(C4_owner_guard exDB (Session.authenticated 2) 1
      (Queue.mk 1 "p1" 6 "xray" 1) "t" "c" (by decide)).2.2 2 rfl (by decide),
   (C4_owner_guard exDB (Session.authenticated 1) 1
      (Queue.mk 1 "p1" 6 "xray" 1) "t" "c" (by decide)).1.mpr rfl,
   (C4_owner_guard exDB (Session.authenticated 1) 1
      (Queue.mk 1 "p1" 6 "xray" 1) "t" "c" (by decide)).2.1.mpr rfl⟩

/-- C5: for every store, token, time and submitted password, if the token
fails verification the `reset_token` route returns the invalid-token outcome
with the store fully unchanged; and whenever the route changes the store at
all, the token verified successfully, the outcome is `passwordUpdated`, the
queue table is untouched and exactly the bound user's row had its password
hash overwritten (all other rows kept as they were). -/
theorem C5_reset_mutates_only_on_verified (secret_key : Nat) (db : DB)
    (t : Token) (now : Nat) (formValid : Bool) (new_password : String) :
    (verify_reset_token secret_key db t now = none →
      reset_token_route secret_key db Session.anonymous t now formValid
          new_password
        = (ResetTokenResult.invalidToken "That is an invalid or expired token",
            db))
    ∧ ((reset_token_route secret_key db Session.anonymous t now formValid
          new_password).2 ≠ db →
        ∃ u, verify_reset_token secret_key db t now = some u
          ∧ (reset_token_route secret_key db Session.anonymous t now formValid
              new_password).1 = ResetTokenResult.passwordUpdated
          ∧ (reset_token_route secret_key db Session.anonymous t now formValid
              new_password).2.queues = db.queues
          ∧ (reset_token_route secret_key db Session.anonymous t now formValid
              new_password).2.users
            = db.users.map (fun v =>
                if v.id = u.id then
                  User.mk v.id v.username v.email v.image_file
                    (generate_password_hash new_password)
                else v)) := by
  cases hv : verify_reset_token secret_key db t now with
  | none =>
    constructor
    · intro _
      simp [reset_token_route, hv]
    · intro hchanged
      exact absurd (by simp [reset_token_route, hv]) hchanged
  | some u =>
    constructor
    · intro h
      exact absurd h (by simp [hv])
    · intro hchanged
      cases formValid with
      | false =>
        exact absurd (by simp [reset_token_route, hv]) hchanged
      | true =>
        exact ⟨u, rfl, by simp [reset_token_route, hv], by simp [reset_token_route, hv],
          by simp [reset_token_route, hv]⟩

/-- C5 witness: a token with a wrong signature on the example store yields the
invalid-token outcome with the store unchanged. -/
theorem C5_reset_mutates_only_on_verified_witness :
    reset_token_route 7 exDB Session.anonymous (Token.mk 1 0 0) 0 true "np"
      = (ResetTokenResult.invalidToken "That is an invalid or expired token",
          exDB) :=
  (C5_reset_mutates_only_on_verified 7 exDB (Token.mk 1 0 0) 0 true "np").1
    (by decide)

/-- Helper: a returned page is the length-5 slice at offset `(page - 1) * 5`,
and its page number is at least 1. -/
theorem paginate_items_eq_slice {l P : List Queue} {page : Nat}
    (h : paginate_items l page = some P) :
    1 ≤ page ∧ P = (l.drop ((page - 1) * 5)).take 5 := by
  unfold paginate_items at h
  split at h
  · exact absurd h (by simp)
  · split at h
    · exact absurd h (by simp)
    · exact ⟨by omega, (Option.some.inj h).symm⟩

/-- Helper: a returned page holds at most 5 entries. -/
theorem paginate_items_length_le {l P : List Queue} {page : Nat}
    (h : paginate_items l page = some P) : P.length ≤ 5 := by
  rcases paginate_items_eq_slice h with ⟨-, rfl⟩
  rw [List.length_take]
  exact inf_le_left

/-- Helper: indexing into the length-5 slice at offset `m` is indexing at
global position `m + k`. -/
theorem slice_getElem? (l : List Queue) (m k : Nat) (hk : k < 5) :
    ((l.drop m).take 5)[k]? = l[m + k]? := by
  rw [List.getElem?_take]
  simp [hk, List.getElem?_drop]

/-- Helper: in a list sorted by non-increasing recency, the entry at a later
position is never newer than the entry at an earlier one. -/
theorem sorted_recency_getElem?_mono {l : List Queue}
    (hs : List.Sorted recencyGE l) {i j : Nat} (hij : i ≤ j) {a b : Queue}
    (ha : l[i]? = some a) (hb : l[j]? = some b) :
    b.date_queued ≤ a.date_queued := by
  rcases List.getElem?_eq_some.mp ha with ⟨hi, ha2⟩
  rcases List.getElem?_eq_some.mp hb with ⟨hj, hb2⟩
  rcases Nat.lt_or_ge i j with hlt | hge
  · have hpw := List.pairwise_iff_get.mp hs ⟨i, hi⟩ ⟨j, hj⟩ (Fin.mk_lt_mk.mpr hlt)
    rw [List.get_eq_getElem, List.get_eq_getElem] at hpw
    rw [ha2, hb2] at hpw
    exact hpw
  · have heq : i = j := le_antisymm hij hge
    subst heq
    have hab : a = b := ha2.symm.trans hb2
    rw [hab]

/-- C6 counterexample: the claim's cross-boundary clause — the last entry of
page `p` is not newer than the first entry of page `p + 1` — is false on the
code. On the example store (six entries with distinct timestamps), the last
entry of page 1 was created at time 2 and the first entry of page 2 at time
1, so the last entry of page 1 is strictly newer. -/
theorem C6_counterexample :
    home_page_items exDB 1
      = some [Queue.mk 1 "p1" 6 "xray" 1, Queue.mk 2 "p2" 5 "mri" 1,
              Queue.mk 3 "p3" 4 "ct" 2, Queue.mk 4 "p4" 3 "lab" 1,
              Queue.mk 5 "p5" 2 "xray" 2]
    ∧ home_page_items exDB 2 = some [Queue.mk 6 "p6" 1 "mri" 1]
    ∧ [Queue.mk 1 "p1" 6 "xray" 1, Queue.mk 2 "p2" 5 "mri" 1,
       Queue.mk 3 "p3" 4 "ct" 2, Queue.mk 4 "p4" 3 "lab" 1,
       Queue.mk 5 "p5" 2 "xray" 2].getLast? = some (Queue.mk 5 "p5" 2 "xray" 2)
    ∧ [Queue.mk 6 "p6" 1 "mri" 1].head? = some (Queue.mk 6 "p6" 1 "mri" 1)
    ∧ ¬ (Queue.mk 5 "p5" 2 "xray" 2).date_queued
        ≤ (Queue.mk 6 "p6" 1 "mri" 1).date_queued := by
  refine ⟨by decide, by decide, by decide, by decide, by decide⟩

/-- C6 amended: the global recency listing is in non-increasing `created_at`
(`date_queued`) order, including across page boundaries: within a page the
entry at position `k` is never older than the one at position `k + 1`, and
the last entry of page `p` is never *older* (it may be newer, never less
recent) than the first entry of page `p + 1`. -/
theorem C6_pages_nonincreasing (db : DB) (page k : Nat) (P Q2 : List Queue)
    (a b : Queue) (hP : home_page_items db page = some P) :
    (P[k]? = some a → P[k + 1]? = some b → b.date_queued ≤ a.date_queued)
    ∧ (home_page_items db (page + 1) = some Q2 →
       P.getLast? = some a → Q2.head? = some b →
       b.date_queued ≤ a.date_queued) := by
  have hsorted : List.Sorted recencyGE (list_by_recency db) :=
    List.sorted_insertionSort recencyGE db.queues
  rcases paginate_items_eq_slice hP with ⟨hpage, hPslice⟩
  have hlenP : P.length ≤ 5 := paginate_items_length_le hP
  constructor
  · intro ha hb
    have hk1 : k + 1 < P.length := (List.getElem?_eq_some.mp hb).1
    have hk5 : k + 1 < 5 := lt_of_lt_of_le hk1 hlenP
    have ha2 : (list_by_recency db)[(page - 1) * 5 + k]? = some a := by
      rw [← slice_getElem? _ _ _ (by omega), ← hPslice]
      exact ha
    have hb2 : (list_by_recency db)[(page - 1) * 5 + (k + 1)]? = some b := by
      rw [← slice_getElem? _ _ _ hk5, ← hPslice]
      exact hb
    exact sorted_recency_getElem?_mono hsorted (by omega) ha2 hb2
  · intro hQ2 hlast hhead
    rcases paginate_items_eq_slice hQ2 with ⟨-, hQslice⟩
    have hQ2slice : Q2 = ((list_by_recency db).drop (page * 5)).take 5 := by
      simpa using hQslice
    rw [List.getLast?_eq_getElem?] at hlast
    have hlenpos : P.length - 1 < P.length := (List.getElem?_eq_some.mp hlast).1
    have ha2 : (list_by_recency db)[(page - 1) * 5 + (P.length - 1)]? = some a := by
      rw [← slice_getElem? _ _ _ (by omega), ← hPslice]
      exact hlast
    rw [List.head?_eq_getElem?] at hhead
    have hb2 : (list_by_recency db)[page * 5 + 0]? = some b := by
      rw [← slice_getElem? _ _ _ (by omega), ← hQ2slice]
      exact hhead
    exact sorted_recency_getElem?_mono hsorted (by omega) ha2 hb2

/-- C6 witness: the amended theorem on the example store across the boundary
of pages 1 and 2. -/
theorem C6_pages_nonincreasing_witness :
    (Queue.mk 6 "p6" 1 "mri" 1).date_queued
      ≤ (Queue.mk 5 "p5" 2 "xray" 2).date_queued :=
  (C6_pages_nonincreasing exDB 1 0
      [Queue.mk 1 "p1" 6 "xray" 1, Queue.mk 2 "p2" 5 "mri" 1,
       Queue.mk 3 "p3" 4 "ct" 2, Queue.mk 4 "p4" 3 "lab" 1,
       Queue.mk 5 "p5" 2 "xray" 2]
      [Queue.mk 6 "p6" 1 "mri" 1]
      (Queue.mk 5 "p5" 2 "xray" 2) (Queue.mk 6 "p6" 1 "mri" 1)
      (by decide)).2 (by decide) (by decide) (by decide)

/-- C9: every page returned by the global home listing and by the per-user
listing holds at most 5 entries, for every store, page number and username —
the page size is the constant `per_page = 5` of the routes, independent of
caller input. -/
theorem C9_page_size_at_most_five (db : DB) (page : Nat) (username : String)
    (L M : List Queue) :
    (home_page_items db page = some L → L.length ≤ 5)
    ∧ (user_queues_items db username page = some M → M.length ≤ 5) := by
  constructor
  · exact fun h => paginate_items_length_le h
  · intro h
    unfold user_queues_items at h
    cases hu : find_by_username db username with
    | none =>
      rw [hu] at h
      exact Option.noConfusion h
    | some u =>
      rw [hu] at h
      exact paginate_items_length_le h

/-- C9 witness: the theorem on the example store, page 1 of the home listing
and page 1 of alice's listing. -/
theorem C9_page_size_at_most_five_witness :
    ([Queue.mk 1 "p1" 6 "xray" 1, Queue.mk 2 "p2" 5 "mri" 1,
      Queue.mk 3 "p3" 4 "ct" 2, Queue.mk 4 "p4" 3 "lab" 1,
      Queue.mk 5 "p5" 2 "xray" 2] : List Queue).length ≤ 5
    ∧ ([Queue.mk 1 "p1" 6 "xray" 1, Queue.mk 2 "p2" 5 "mri" 1,
        Queue.mk 4 "p4" 3 "lab" 1, Queue.mk 6 "p6" 1 "mri" 1] : List Queue).length ≤ 5 :=
  ⟨(C9_page_size_at_most_five exDB 1 "alice"
      [Queue.mk 1 "p1" 6 "xray" 1, Queue.mk 2 "p2" 5 "mri" 1,
       Queue.mk 3 "p3" 4 "ct" 2, Queue.mk 4 "p4" 3 "lab" 1,
       Queue.mk 5 "p5" 2 "xray" 2] []).1 (by decide),
   (C9_page_size_at_most_five exDB 1 "alice" []
      [Queue.mk 1 "p1" 6 "xray" 1, Queue.mk 2 "p2" 5 "mri" 1,
       Queue.mk 4 "p4" 3 "lab" 1, Queue.mk 6 "p6" 1 "mri" 1]).2 (by decide)⟩

end HealthQueue
